import Mathlib

/-!
Verification development for the trufflehog-mcp server (`src/index.ts`).

The TypeScript source is shallowly embedded: pure functions become Lean
functions; effectful steps (spawning the external engine, filesystem
writes/deletes, `Date.now`, `Math.random`, `JSON.parse`, `path.resolve`)
are passed in explicitly as oracle parameters or event lists, and each
tool handler additionally returns the ordered list of externally visible
effects it performed.  Exceptions are modelled with `Except`.
-/

set_option maxRecDepth 4000

namespace TrufflehogMcp

/-- One decoded finding record (interface `TruffleHogFinding` in the source).
The two metadata mappings (`ExtraData`, `SourceMetadata.Data`) are opaque to
every operation modelled here — the handlers only ever re-serialize them —
so they are carried as their serialized string forms.  Fields the handlers
never read (`SourceID`, `Raw`, ...) are omitted as inert payload. -/
structure TruffleHogFinding where
  SourceName : String
  DetectorName : String
  Verified : Bool
  Redacted : String
  ExtraData : String
  SourceMetadataData : String
deriving Repr, DecidableEq, Inhabited

/-- Result of one external-engine execution (`{stdout, stderr, exitCode}`). -/
structure ExecutionResult where
  stdout : String
  stderr : String
  exitCode : Int
deriving Repr, DecidableEq, Inhabited

/-- Externally visible effects a tool handler performs, in order. -/
inductive Effect where
  | built (cmd : List String)
  | executed (cmd : List String)
  | wroteTemp (file : String)
  | checkedExists (file : String) (result : Bool)
  | unlinkAttempt (file : String)
deriving Repr, DecidableEq

/-! ### JavaScript string builtins

The source calls `String.prototype.trim`, `String.prototype.split` and
`Array.prototype.join`; these external builtins are modelled as executable
character-list recursions so that every proof can be checked by the kernel. -/

/-- `String.prototype.trim` on a character list: strip whitespace from both
ends. -/
def jsTrimList (l : List Char) : List Char :=
  ((l.dropWhile Char.isWhitespace).reverse.dropWhile Char.isWhitespace).reverse

/-- `s.trim()`. -/
def jsTrim (s : String) : String :=
  String.mk (jsTrimList s.data)

/-- Worker for `s.split(sep)` with a one-character separator. -/
def jsSplitAux (sep : Char) : List Char → List Char → List String
  | acc, [] => [String.mk acc.reverse]
  | acc, c :: rest =>
    if c = sep then String.mk acc.reverse :: jsSplitAux sep [] rest
    else jsSplitAux sep (c :: acc) rest

/-- `s.split(sep)` for a one-character separator (the source only ever
splits on `"\n"`). -/
def jsSplit (s : String) (sep : Char) : List String :=
  jsSplitAux sep [] s.data

/-- `!line.trim()` — the blank-line test of the parser loop. -/
def isBlankLine (line : String) : Bool :=
  (jsTrimList line.data).isEmpty

/-! ### Finding parser (`parseFindings`)

The JSON decoder (`JSON.parse` + the `as TruffleHogFinding` cast) is an
external library function; it is passed in as `jsonParse`.  The source loop
pushes decoded findings onto an accumulator and `continue`s past blank
lines and decode failures; the recursion below produces the same list. -/

/-- The `for (const line of lines)` loop body of `parseFindings`. -/
def parseLines (jsonParse : String → Option TruffleHogFinding) :
    List String → List TruffleHogFinding
  | [] => []
  | line :: rest =>
    if isBlankLine line then parseLines jsonParse rest
    else
      match jsonParse line with
      | some finding => finding :: parseLines jsonParse rest
      | none => parseLines jsonParse rest

/-- `parseFindings(output)`: `output.trim().split("\n")`, then the skip /
decode / push loop. -/
def parseFindings (jsonParse : String → Option TruffleHogFinding)
    (output : String) : List TruffleHogFinding :=
  parseLines jsonParse (jsSplit (jsTrim output) '\n')

/-- `formatFindings(findings)`. -/
def formatFindings (findings : List TruffleHogFinding) : String :=
  if findings.length = 0 then "No secrets found."
  else
    let formatted := findings.enum.map (fun p =>
      "\n## Finding " ++ toString (p.1 + 1)
        ++ "\n- **Detector**: " ++ p.2.DetectorName
        ++ "\n- **Verified**: " ++ (if p.2.Verified then "Yes" else "No")
        ++ "\n- **Source**: " ++ p.2.SourceName
        ++ "\n- **Redacted Secret**: " ++ p.2.Redacted
        ++ "\n- **Extra Data**: " ++ p.2.ExtraData
        ++ "\n- **Source Metadata**: " ++ p.2.SourceMetadataData
        ++ "\n")
    "# TruffleHog Scan Results\n\nFound " ++ toString findings.length
      ++ " secret(s):\n" ++ String.intercalate "\n---\n" formatted ++ "\n"

/-! ### Process executor (`executeTruffleHogScan`)

The child process is modelled by the ordered list of events its handlers
receive: `data` events on stdout/stderr, then either a `close` event
carrying the (possibly null) exit code or an `error` event carrying the
launch-failure message.  The promise executor accumulates chunks and
resolves at the first terminal event; it has no rejection path at all, so
the result type below has no error constructor — `none` means the process
never terminated and the promise stays pending. -/

inductive ProcEvent where
  | stdoutData (chunk : String)
  | stderrData (chunk : String)
  | closeEvt (code : Option Int)
  | errorEvt (message : String)
deriving Repr, DecidableEq

/-- Is this a (non-terminal) data event? -/
def ProcEvent.isData : ProcEvent → Bool
  | .stdoutData _ => true
  | .stderrData _ => true
  | _ => false

/-- Event loop of `executeTruffleHogScan`'s promise executor: push chunks,
resolve on `close` with `exitCode ?? 0`, resolve on `error` with the
synthesized stderr message and exit code 1. -/
def runExecutor (stdoutAcc stderrAcc : List String) :
    List ProcEvent → Option ExecutionResult
  | [] => none
  | .stdoutData chunk :: rest => runExecutor (stdoutAcc ++ [chunk]) stderrAcc rest
  | .stderrData chunk :: rest => runExecutor stdoutAcc (stderrAcc ++ [chunk]) rest
  | .closeEvt code :: _ =>
    some { stdout := String.join stdoutAcc
           stderr := String.join stderrAcc
           exitCode := code.getD 0 }
  | .errorEvt message :: _ =>
    some { stdout := String.join stdoutAcc
           stderr := "Error executing trufflehog: " ++ message
           exitCode := 1 }

/-- `executeTruffleHogScan(args)` under a given child-process event list.
`args` is handed to `spawn` and does not influence the promise machinery. -/
def executeTruffleHogScan (args : List String) (events : List ProcEvent) :
    Option ExecutionResult :=
  let _ := args
  runExecutor [] [] events

/-- The stdout chunks delivered by an event prefix. -/
def stdoutChunks (events : List ProcEvent) : List String :=
  events.filterMap (fun e => match e with | .stdoutData c => some c | _ => none)

/-- The stderr chunks delivered by an event prefix. -/
def stderrChunks (events : List ProcEvent) : List String :=
  events.filterMap (fun e => match e with | .stderrData c => some c | _ => none)

/-! ### Installation status cache

`cliInstallationCache` is a module-level slot; `Date.now()` and the outcome
of the `trufflehog --version` probe (`execFileSync`) are oracle inputs.
Each modelled call returns its value, the new slot contents, and the number
of probe invocations it issued. -/

/-- The cached `{installed, version, checkedAt}` record. -/
structure CliCacheEntry where
  installed : Bool
  version : String
  checkedAt : Int
deriving Repr, DecidableEq

/-- `CLI_CACHE_TTL = 60000` milliseconds. -/
def CLI_CACHE_TTL : Int := 60000

/-- Outcome of one `execFileSync("trufflehog", ["--version"])` probe:
the raw stdout on success, or any thrown error. -/
inductive ProbeOutcome where
  | success (raw : String)
  | failure
deriving Repr, DecidableEq

/-- Result of one `isTruffleHogInstalled()` call. -/
structure CheckOutcome where
  result : Bool
  cache : Option CliCacheEntry
  probes : Nat
deriving Repr, DecidableEq

/-- Result of one `getTruffleHogVersion()` call. -/
structure VersionOutcome where
  result : String
  cache : Option CliCacheEntry
  probes : Nat
deriving Repr, DecidableEq

/-- `isTruffleHogInstalled()`: serve from the cache when it is within the
TTL; otherwise probe once and replace the slot wholesale (success stores
the trimmed version, any failure stores `"Not installed"`). -/
def isTruffleHogInstalled (now : Int) (probe : ProbeOutcome)
    (cache : Option CliCacheEntry) : CheckOutcome :=
  match cache with
  | some entry =>
    if now - entry.checkedAt < CLI_CACHE_TTL then
      { result := entry.installed, cache := some entry, probes := 0 }
    else
      match probe with
      | .success raw =>
        { result := true
          cache := some { installed := true, version := jsTrim raw, checkedAt := now }
          probes := 1 }
      | .failure =>
        { result := false
          cache := some { installed := false, version := "Not installed", checkedAt := now }
          probes := 1 }
  | none =>
    match probe with
    | .success raw =>
      { result := true
        cache := some { installed := true, version := jsTrim raw, checkedAt := now }
        probes := 1 }
    | .failure =>
      { result := false
        cache := some { installed := false, version := "Not installed", checkedAt := now }
        probes := 1 }

/-- `getTruffleHogVersion()`: serve from a fresh cache; otherwise refresh
through `isTruffleHogInstalled()` and read
`cliInstallationCache?.version || "Not installed"` (the `||` folds an empty
version string to the fallback). -/
def getTruffleHogVersion (now : Int) (probe : ProbeOutcome)
    (cache : Option CliCacheEntry) : VersionOutcome :=
  match cache with
  | some entry =>
    if now - entry.checkedAt < CLI_CACHE_TTL then
      { result := entry.version, cache := some entry, probes := 0 }
    else
      refresh
  | none => refresh
where
  refresh : VersionOutcome :=
    let o := isTruffleHogInstalled now probe cache
    { result :=
        match o.cache with
        | some entry => if entry.version.isEmpty then "Not installed" else entry.version
        | none => "Not installed"
      cache := o.cache
      probes := o.probes }

/-! ### Path validation and argument building

`path.resolve` is an external library function and is passed in as the
oracle `pathResolve`.  A thrown `Error` is modelled as `Except.error` with
the error's message.  The JavaScript truthiness tests guarding each
optional field (`if (args.x)`) are made explicit per field type: an empty
string and the number 0 are falsy, while any array — even an empty one —
is truthy. -/

/-- The `'\0'` character. -/
def nullByte : Char := Char.ofNat 0

/-- `validatePath(inputPath)`: resolve, reject paths that include `'\0'`,
return the resolved path. -/
def validatePath (pathResolve : String → String) (inputPath : String) :
    Except String String :=
  let resolvedPath := pathResolve inputPath
  if inputPath.data.contains nullByte then
    Except.error "Invalid path: contains null bytes"
  else Except.ok resolvedPath

/-- `if (args.x) cmdArgs.push(flag, args.x)` for an optional string field
(an empty string is falsy and appends nothing). -/
def optStr (flag : String) : Option String → List String
  | some s => if s.isEmpty then [] else [flag, s]
  | none => []

/-- `if (args.x) cmdArgs.push(flag, String(args.x))` for an optional
numeric field (0 is falsy and appends nothing). -/
def optInt (flag : String) : Option Int → List String
  | some n => if n = 0 then [] else [flag, toString n]
  | none => []

/-- `if (args.x) cmdArgs.push(flag)` for an optional boolean field. -/
def optFlag (flag : String) : Option Bool → List String
  | some b => if b then [flag] else []
  | none => []

/-- `if (args.x) cmdArgs.push(flag, args.x.join(","))` for an optional
list field — one flag token followed by one comma-joined value token
(arrays are always truthy, so an empty list still appends the pair). -/
def optJoinList (flag : String) : Option (List String) → List String
  | some items => [flag, String.intercalate "," items]
  | none => []

/-- Leftmost-search infix test on character lists, modelling
`String.prototype.includes`. -/
def listIsInfix (needle : List Char) : List Char → Bool
  | [] => needle.isEmpty
  | c :: rest => needle.isPrefixOf (c :: rest) || listIsInfix needle rest

/-- `s.includes(sub)`. -/
def jsIncludes (s sub : String) : Bool :=
  listIsInfix sub.data s.data

/-- Arguments of the `scan_git_repo` tool (absent fields are `none`). -/
structure ScanGitRepoArgs where
  target : String
  branch : Option String := none
  maxDepth : Option Int := none
  onlyVerified : Option Bool := none
  sinceCommit : Option String := none
  includeDetectors : Option (List String) := none
  excludeDetectors : Option (List String) := none

/-- Token construction of the `scan_git_repo` case. -/
def buildGitRepoArgs (a : ScanGitRepoArgs) : List String :=
  let cmdArgs := ["git", a.target, "--json"]
  let cmdArgs := cmdArgs ++ optStr "--branch" a.branch
  let cmdArgs := cmdArgs ++ optInt "--max-depth" a.maxDepth
  let cmdArgs := cmdArgs ++ optFlag "--only-verified" a.onlyVerified
  let cmdArgs := cmdArgs ++ optStr "--since-commit" a.sinceCommit
  let cmdArgs := cmdArgs ++ optJoinList "--include-detectors" a.includeDetectors
  let cmdArgs := cmdArgs ++ optJoinList "--exclude-detectors" a.excludeDetectors
  cmdArgs

/-- Arguments of the `scan_github_org` tool. -/
structure ScanGithubOrgArgs where
  org : String
  token : Option String := none
  includeRepos : Option (List String) := none
  excludeRepos : Option (List String) := none
  onlyVerified : Option Bool := none

/-- Token construction of the `scan_github_org` case. -/
def buildGithubOrgArgs (a : ScanGithubOrgArgs) : List String :=
  let cmdArgs := ["github", "--org", a.org, "--json"]
  let cmdArgs := cmdArgs ++ optStr "--token" a.token
  let cmdArgs := cmdArgs ++ optJoinList "--include-repos" a.includeRepos
  let cmdArgs := cmdArgs ++ optJoinList "--exclude-repos" a.excludeRepos
  let cmdArgs := cmdArgs ++ optFlag "--only-verified" a.onlyVerified
  cmdArgs

/-- Arguments of the `scan_gitlab` tool. -/
structure ScanGitlabArgs where
  url : String
  token : String
  group : Option String := none
  project : Option String := none
  onlyVerified : Option Bool := none

/-- Token construction of the `scan_gitlab` case: `--url` is appended only
when the url does not contain `"gitlab.com"`. -/
def buildGitlabArgs (a : ScanGitlabArgs) : List String :=
  let cmdArgs := ["gitlab", "--token", a.token, "--json"]
  let cmdArgs := cmdArgs ++ (if jsIncludes a.url "gitlab.com" then [] else ["--url", a.url])
  let cmdArgs := cmdArgs ++ optStr "--group" a.group
  let cmdArgs := cmdArgs ++ optStr "--project" a.project
  let cmdArgs := cmdArgs ++ optFlag "--only-verified" a.onlyVerified
  cmdArgs

/-- Arguments of the `scan_filesystem` tool. -/
structure ScanFilesystemArgs where
  path : String
  excludePaths : Option (List String) := none
  onlyVerified : Option Bool := none

/-- The `for (const excludePath of args.excludePaths)` loop: each element is
validated and pushed as its own `--exclude-paths` flag/value pair; a
validation throw aborts the build. -/
def buildExcludePaths (pathResolve : String → String) (cmdArgs : List String) :
    List String → Except String (List String)
  | [] => Except.ok cmdArgs
  | p :: rest =>
    match validatePath pathResolve p with
    | Except.error e => Except.error e
    | Except.ok v => buildExcludePaths pathResolve (cmdArgs ++ ["--exclude-paths", v]) rest

/-- Token construction of the `scan_filesystem` case. -/
def buildFilesystemArgs (pathResolve : String → String) (a : ScanFilesystemArgs) :
    Except String (List String) :=
  match validatePath pathResolve a.path with
  | Except.error e => Except.error e
  | Except.ok scanPath =>
    let cmdArgs := ["filesystem", scanPath, "--json"]
    match a.excludePaths with
    | some ps =>
      match buildExcludePaths pathResolve cmdArgs ps with
      | Except.error e => Except.error e
      | Except.ok cmdArgs => Except.ok (cmdArgs ++ optFlag "--only-verified" a.onlyVerified)
    | none => Except.ok (cmdArgs ++ optFlag "--only-verified" a.onlyVerified)

/-- Arguments of the `scan_s3_bucket` tool; `keyPrefix` stands for the
tool's `prefix` field, whose name is reserved in Lean. -/
structure ScanS3BucketArgs where
  bucket : String
  keyPrefix : Option String := none
  onlyVerified : Option Bool := none

/-- Token construction of the `scan_s3_bucket` case. -/
def buildS3BucketArgs (a : ScanS3BucketArgs) : List String :=
  let cmdArgs := ["s3", "--bucket", a.bucket, "--json"]
  let cmdArgs := cmdArgs ++ optStr "--key" a.keyPrefix
  let cmdArgs := cmdArgs ++ optFlag "--only-verified" a.onlyVerified
  cmdArgs

/-- Arguments of the `scan_docker_image` tool. -/
structure ScanDockerImageArgs where
  image : String
  onlyVerified : Option Bool := none

/-- Token construction of the `scan_docker_image` case. -/
def buildDockerImageArgs (a : ScanDockerImageArgs) : List String :=
  let cmdArgs := ["docker", "--image", a.image, "--json"]
  let cmdArgs := cmdArgs ++ optFlag "--only-verified" a.onlyVerified
  cmdArgs

/-! ### Tool handlers (`handleToolCall` scan cases)

Each handler is modelled against an environment consisting of the value the
installation check returns (`installed`), the executor oracle
`exec : List String → ExecutionResult` (the executor itself never throws,
see `executeTruffleHogScan`), and the JSON decoder.  A handler returns the
string it produces — `Except.error` when it throws to the dispatcher — plus
the ordered list of externally visible effects. -/

/-- The short-circuit message every scan case returns when the engine is
absent. -/
def notInstalledMsg : String :=
  "Error: TruffleHog CLI is not installed. Please install it first."

/-- The shared tail of every `scan_*` case: execute, surface
`errPrefix + stderr` when the exit code is non-zero with non-empty stderr
and empty stdout, otherwise parse and format the findings. -/
def runScan (errPrefix : String) (exec : List String → ExecutionResult)
    (jsonParse : String → Option TruffleHogFinding) (cmdArgs : List String) :
    String × List Effect :=
  let result := exec cmdArgs
  let out :=
    if result.exitCode != 0 && !result.stderr.isEmpty && result.stdout.isEmpty then
      errPrefix ++ result.stderr
    else
      formatFindings (parseFindings jsonParse result.stdout)
  (out, [Effect.built cmdArgs, Effect.executed cmdArgs])

/-- The `scan_git_repo` case. -/
def scan_git_repo (installed : Bool) (exec : List String → ExecutionResult)
    (jsonParse : String → Option TruffleHogFinding) (a : ScanGitRepoArgs) :
    Except String String × List Effect :=
  if !installed then (Except.ok notInstalledMsg, [])
  else
    let cmdArgs := buildGitRepoArgs a
    let r := runScan "Error scanning repository: " exec jsonParse cmdArgs
    (Except.ok r.1, r.2)

/-- The `scan_github_org` case. -/
def scan_github_org (installed : Bool) (exec : List String → ExecutionResult)
    (jsonParse : String → Option TruffleHogFinding) (a : ScanGithubOrgArgs) :
    Except String String × List Effect :=
  if !installed then (Except.ok notInstalledMsg, [])
  else
    let cmdArgs := buildGithubOrgArgs a
    let r := runScan "Error scanning GitHub organization: " exec jsonParse cmdArgs
    (Except.ok r.1, r.2)

/-- The `scan_gitlab` case. -/
def scan_gitlab (installed : Bool) (exec : List String → ExecutionResult)
    (jsonParse : String → Option TruffleHogFinding) (a : ScanGitlabArgs) :
    Except String String × List Effect :=
  if !installed then (Except.ok notInstalledMsg, [])
  else
    let cmdArgs := buildGitlabArgs a
    let r := runScan "Error scanning GitLab: " exec jsonParse cmdArgs
    (Except.ok r.1, r.2)

/-- The `scan_filesystem` case; a `validatePath` throw propagates to the
dispatcher as `Except.error` before any execution. -/
def scan_filesystem (installed : Bool) (pathResolve : String → String)
    (exec : List String → ExecutionResult)
    (jsonParse : String → Option TruffleHogFinding) (a : ScanFilesystemArgs) :
    Except String String × List Effect :=
  if !installed then (Except.ok notInstalledMsg, [])
  else
    match buildFilesystemArgs pathResolve a with
    | Except.error e => (Except.error e, [])
    | Except.ok cmdArgs =>
      let r := runScan "Error scanning filesystem: " exec jsonParse cmdArgs
      (Except.ok r.1, r.2)

/-- The `scan_s3_bucket` case. -/
def scan_s3_bucket (installed : Bool) (exec : List String → ExecutionResult)
    (jsonParse : String → Option TruffleHogFinding) (a : ScanS3BucketArgs) :
    Except String String × List Effect :=
  if !installed then (Except.ok notInstalledMsg, [])
  else
    let cmdArgs := buildS3BucketArgs a
    let r := runScan "Error scanning S3 bucket: " exec jsonParse cmdArgs
    (Except.ok r.1, r.2)

/-- The `scan_docker_image` case. -/
def scan_docker_image (installed : Bool) (exec : List String → ExecutionResult)
    (jsonParse : String → Option TruffleHogFinding) (a : ScanDockerImageArgs) :
    Except String String × List Effect :=
  if !installed then (Except.ok notInstalledMsg, [])
  else
    let cmdArgs := buildDockerImageArgs a
    let r := runScan "Error scanning Docker image: " exec jsonParse cmdArgs
    (Except.ok r.1, r.2)

/-! ### The `verify_secret` case -/

/-- Arguments of the `verify_secret` tool. -/
structure VerifySecretArgs where
  secret : String
  detectorType : String

/-- Environment of one `verify_secret` call: the installation-check value,
`os.tmpdir()`, the `Math.random().toString(36).substring(2, 15)` output,
whether `fs.writeFileSync` succeeds (with the stringified error it would
throw), the executor and decoder oracles, and whether `fs.unlinkSync`
succeeds. -/
structure VerifyEnv where
  installed : Bool
  tempDir : String
  randomSuffix : String
  writeOk : Bool
  writeErr : String
  exec : List String → ExecutionResult
  jsonParse : String → Option TruffleHogFinding
  unlinkOk : Bool

/-- The no-findings report of `verify_secret`. -/
def verifyNoMatchMsg (detectorType : String) : String :=
  "# Verification Result\n\nNo matching secrets found for detector type: "
    ++ detectorType
    ++ "\n\nThis could mean:\n- The secret format doesn\x27t match the expected pattern\n- The detector type is incorrect\n- The secret is not recognized by TruffleHog\n"

/-- The first-finding report of `verify_secret`. -/
def verifyResultMsg (finding : TruffleHogFinding) : String :=
  "# Verification Result\n\n- **Detector**: " ++ finding.DetectorName
    ++ "\n- **Verified**: "
    ++ (if finding.Verified then "YES - Secret is ACTIVE" else "NO - Could not verify")
    ++ "\n- **Redacted**: " ++ finding.Redacted
    ++ "\n\n"
    ++ (if finding.Verified then
          "**WARNING**: This secret is active and should be rotated immediately!"
        else
          "The secret could not be verified. It may be inactive or the verification endpoint was unreachable.")
    ++ "\n"

/-- `path.join(tempDir, "trufflehog-verify-" + randomSuffix + ".txt")`. -/
def verifyTempFileName (tempDir randomSuffix : String) : String :=
  tempDir ++ "/trufflehog-verify-" ++ randomSuffix ++ ".txt"

/-- The `verify_secret` case: short-circuit when the engine is absent;
otherwise write the secret to the temp file inside `try`, scan it, report;
`catch` stringifies any throw; `finally` deletes the file when it exists,
swallowing deletion errors.  The modelled filesystem state is the single
temp file: it exists from a successful write until the `finally` block
(nothing in between removes it). -/
def verify_secret (env : VerifyEnv) (a : VerifySecretArgs) :
    Except String String × List Effect :=
  if !env.installed then (Except.ok notInstalledMsg, [])
  else
    let tempFile := verifyTempFileName env.tempDir env.randomSuffix
    let tryOut : String × List Effect × Bool :=
      if env.writeOk then
        let cmdArgs :=
          ["filesystem", tempFile, "--json", "--include-detectors", a.detectorType]
        let result := env.exec cmdArgs
        let findings := parseFindings env.jsonParse result.stdout
        let body :=
          match findings with
          | [] => verifyNoMatchMsg a.detectorType
          | finding :: _ => verifyResultMsg finding
        (body, [Effect.wroteTemp tempFile, Effect.built cmdArgs, Effect.executed cmdArgs],
          true)
      else
        ("Error verifying secret: " ++ env.writeErr, [], false)
    let fileExists := tryOut.2.2
    let finallyTrace :=
      if fileExists then
        match (if env.unlinkOk then Except.ok () else Except.error "unlink failed" :
            Except String Unit) with
        | Except.ok _ => [Effect.checkedExists tempFile true, Effect.unlinkAttempt tempFile]
        | Except.error _ =>
          [Effect.checkedExists tempFile true, Effect.unlinkAttempt tempFile]
      else [Effect.checkedExists tempFile false]
    (Except.ok tryOut.1, tryOut.2.1 ++ finallyTrace)

/-- Number of successful temp-file creations in a trace. -/
def countTempCreates (trace : List Effect) : Nat :=
  (trace.filter fun e => match e with | Effect.wroteTemp _ => true | _ => false).length

/-- Number of deletion attempts in a trace. -/
def countUnlinkAttempts (trace : List Effect) : Nat :=
  (trace.filter fun e => match e with | Effect.unlinkAttempt _ => true | _ => false).length

/-! ### Randomness source of the temp-file name (claim C9)

The name suffix in the source is `Math.random().toString(36).substring(2, 15)`
— the non-cryptographic PRNG — even though the adjacent comment and the
changelog say "using crypto for unique naming" / "crypto-random suffixes".
The API family actually called is recorded here as data. -/

/-- The possible origins of the temp-file name suffix. -/
inductive RandomnessSource where
  | mathRandom
  | cryptoRandom
  | timestamp
deriving Repr, DecidableEq

/-- The origin used by `verify_secret` in the source: `Math.random()`. -/
def verifySuffixSource : RandomnessSource := RandomnessSource.mathRandom

/-- The `mode` option of the temp-file `writeFileSync` call: `0o600`. -/
def verifyTempFileMode : Nat := 0o600

end TrufflehogMcp

namespace TrufflehogMcp

/-- Helper for C1: splitting a concrete two-line mixed input. -/
theorem mixed_input_splits :
    jsSplit (jsTrim "finding-line\nnot a json line") '\n'
      = ["finding-line", "not a json line"] := by decide

/-- Characterization used by claim C1: the accumulator loop of the parser
equals a filter of the non-blank lines followed by a lenient decode. -/
theorem parseLines_eq_filterMap (jsonParse : String → Option TruffleHogFinding)
    (lines : List String) :
    parseLines jsonParse lines
      = (lines.filter (fun l => !isBlankLine l)).filterMap jsonParse := by
  induction lines with
  | nil => rfl
  | cons line rest ih =>
    by_cases hb : isBlankLine line
    · simp [parseLines, hb, List.filter, ih]
    · cases hj : jsonParse line <;>
        simp [parseLines, hb, hj, List.filter, List.filterMap, ih]

/-- C1: `parseFindings` splits its input on newlines, skips blank lines,
decodes each remaining line, silently discards lines that fail to decode
without aborting the rest, and keeps the findings in line order (first
conjunct: the loop equals, on the whole trimmed line list, a blank-line
filter followed by a lenient decode that drops exactly the failing lines);
in particular an input mixing one valid JSON finding line and one non-JSON
line yields exactly that one finding (second conjunct, for any decoder that
accepts the first line and rejects the second). -/
theorem parseFindings_lenient_line_decode
    (jsonParse : String → Option TruffleHogFinding) (f : TruffleHogFinding) :
    (∀ output : String,
      parseFindings jsonParse output
        = ((jsSplit (jsTrim output) '\n').filter
            (fun l => !isBlankLine l)).filterMap jsonParse)
    ∧ parseFindings
        (fun s => if s = "finding-line" then some f else none)
        "finding-line\nnot a json line" = [f] := by
  constructor
  · intro output
    exact parseLines_eq_filterMap jsonParse _
  · show parseLines _ (jsSplit (jsTrim "finding-line\nnot a json line") '\n') = [f]
    rw [mixed_input_splits]
    simp [parseLines, isBlankLine, jsTrimList]

/-- Data events only move chunks into the accumulators. -/
theorem runExecutor_consumes_data (pre : List ProcEvent)
    (h : ∀ e ∈ pre, e.isData = true) (stdoutAcc stderrAcc : List String)
    (rest : List ProcEvent) :
    runExecutor stdoutAcc stderrAcc (pre ++ rest)
      = runExecutor (stdoutAcc ++ stdoutChunks pre)
          (stderrAcc ++ stderrChunks pre) rest := by
  induction pre generalizing stdoutAcc stderrAcc with
  | nil => simp [stdoutChunks, stderrChunks]
  | cons e pre ih =>
    have he : e.isData = true := h e (List.mem_cons_self e pre)
    have hpre : ∀ e ∈ pre, e.isData = true :=
      fun e' he' => h e' (List.mem_cons_of_mem e he')
    cases e with
    | stdoutData c =>
      show runExecutor (stdoutAcc ++ [c]) stderrAcc (pre ++ rest) = _
      rw [ih hpre]
      simp [stdoutChunks, stderrChunks, List.filterMap]
    | stderrData c =>
      show runExecutor stdoutAcc (stderrAcc ++ [c]) (pre ++ rest) = _
      rw [ih hpre]
      simp [stdoutChunks, stderrChunks, List.filterMap]
    | closeEvt code => simp [ProcEvent.isData] at he
    | errorEvt m => simp [ProcEvent.isData] at he

/-- C3: `executeTruffleHogScan` never rejects — every terminated run resolves
with a result.  After any prefix of data events: a `close` event resolves
with the accumulated stdout and stderr and the child's exit code, a null
(`none`) exit code being normalized to 0; an `error` (launch-failure) event
resolves with exit code 1 and the synthesized
`Error executing trufflehog: ...` stderr message. -/
theorem executeTruffleHogScan_resolves (args : List String)
    (pre : List ProcEvent) (h : ∀ e ∈ pre, e.isData = true)
    (code : Option Int) (message : String) (rest : List ProcEvent) :
    executeTruffleHogScan args (pre ++ ProcEvent.closeEvt code :: rest)
        = some { stdout := String.join (stdoutChunks pre)
                 stderr := String.join (stderrChunks pre)
                 exitCode := code.getD 0 }
      ∧ executeTruffleHogScan args (pre ++ ProcEvent.closeEvt none :: rest)
          = some { stdout := String.join (stdoutChunks pre)
                   stderr := String.join (stderrChunks pre)
                   exitCode := 0 }
      ∧ executeTruffleHogScan args (pre ++ ProcEvent.errorEvt message :: rest)
          = some { stdout := String.join (stdoutChunks pre)
                   stderr := "Error executing trufflehog: " ++ message
                   exitCode := 1 } := by
  unfold executeTruffleHogScan
  rw [runExecutor_consumes_data pre h, runExecutor_consumes_data pre h,
    runExecutor_consumes_data pre h]
  simp [runExecutor]

/-- Witness for C3 at a concrete event trace. -/
theorem executeTruffleHogScan_resolves_witness :
    (∀ e ∈ [ProcEvent.stdoutData "out1", ProcEvent.stderrData "err1",
        ProcEvent.stdoutData "out2"], e.isData = true)
    ∧ (executeTruffleHogScan ["git", "repo", "--json"]
          ([ProcEvent.stdoutData "out1", ProcEvent.stderrData "err1",
            ProcEvent.stdoutData "out2"] ++ ProcEvent.closeEvt (some 2) :: [])
          = some { stdout := String.join (stdoutChunks
                     [ProcEvent.stdoutData "out1", ProcEvent.stderrData "err1",
                      ProcEvent.stdoutData "out2"])
                   stderr := String.join (stderrChunks
                     [ProcEvent.stdoutData "out1", ProcEvent.stderrData "err1",
                      ProcEvent.stdoutData "out2"])
                   exitCode := (some (2 : Int)).getD 0 }
        ∧ executeTruffleHogScan ["git", "repo", "--json"]
            ([ProcEvent.stdoutData "out1", ProcEvent.stderrData "err1",
              ProcEvent.stdoutData "out2"] ++ ProcEvent.closeEvt none :: [])
            = some { stdout := String.join (stdoutChunks
                       [ProcEvent.stdoutData "out1", ProcEvent.stderrData "err1",
                        ProcEvent.stdoutData "out2"])
                     stderr := String.join (stderrChunks
                       [ProcEvent.stdoutData "out1", ProcEvent.stderrData "err1",
                        ProcEvent.stdoutData "out2"])
                     exitCode := 0 }
        ∧ executeTruffleHogScan ["git", "repo", "--json"]
            ([ProcEvent.stdoutData "out1", ProcEvent.stderrData "err1",
              ProcEvent.stdoutData "out2"] ++ ProcEvent.errorEvt "ENOENT" :: [])
            = some { stdout := String.join (stdoutChunks
                       [ProcEvent.stdoutData "out1", ProcEvent.stderrData "err1",
                        ProcEvent.stdoutData "out2"])
                     stderr := "Error executing trufflehog: " ++ "ENOENT"
                     exitCode := 1 }) :=
  ⟨by decide,
   executeTruffleHogScan_resolves ["git", "repo", "--json"]
     [ProcEvent.stdoutData "out1", ProcEvent.stderrData "err1",
      ProcEvent.stdoutData "out2"] (by decide) (some 2) "ENOENT" []⟩

/-- C8: a `checkInstalled`/`getVersion` call made within the 60-second TTL
of the last probe serves the cached entry and issues no probe (first two
conjuncts); starting from an empty cache, one call probes exactly once and
two further `checkInstalled()` calls within the TTL window issue no further
probe and leave the slot unchanged, so at most one probe happens in total
(remaining conjuncts). -/
theorem installCheck_ttl_caching (entry : CliCacheEntry) (now : Int)
    (probe : ProbeOutcome) (t0 t1 t2 : Int) (p1 p2 p3 : ProbeOutcome)
    (hfresh : now - entry.checkedAt < CLI_CACHE_TTL)
    (h1 : t1 - t0 < CLI_CACHE_TTL) (h2 : t2 - t0 < CLI_CACHE_TTL) :
    isTruffleHogInstalled now probe (some entry)
        = { result := entry.installed, cache := some entry, probes := 0 }
      ∧ getTruffleHogVersion now probe (some entry)
          = { result := entry.version, cache := some entry, probes := 0 }
      ∧ (isTruffleHogInstalled t0 p1 none).probes = 1
      ∧ (isTruffleHogInstalled t1 p2 (isTruffleHogInstalled t0 p1 none).cache).probes = 0
      ∧ (isTruffleHogInstalled t2 p3
          (isTruffleHogInstalled t1 p2 (isTruffleHogInstalled t0 p1 none).cache).cache).probes = 0
      ∧ (isTruffleHogInstalled t2 p3
          (isTruffleHogInstalled t1 p2 (isTruffleHogInstalled t0 p1 none).cache).cache).cache
          = (isTruffleHogInstalled t0 p1 none).cache := by
  refine ⟨?_, ?_, ?_, ?_, ?_, ?_⟩
  · simp [isTruffleHogInstalled, hfresh]
  · simp [getTruffleHogVersion, hfresh]
  · cases p1 <;> simp [isTruffleHogInstalled]
  · cases p1 <;> simp [isTruffleHogInstalled, h1]
  · cases p1 <;> simp [isTruffleHogInstalled, h1, h2]
  · cases p1 <;> simp [isTruffleHogInstalled, h1, h2]

/-- Witness for C8 at concrete times and probe outcomes. -/
theorem installCheck_ttl_caching_witness :
    ((100 : Int) - 90 < CLI_CACHE_TTL ∧ (5 : Int) - 0 < CLI_CACHE_TTL
        ∧ (9 : Int) - 0 < CLI_CACHE_TTL)
    ∧ (isTruffleHogInstalled 100 (ProbeOutcome.success "trufflehog 3.0")
          (some { installed := true, version := "3.0", checkedAt := 90 })
        = { result := true
            cache := some { installed := true, version := "3.0", checkedAt := 90 }
            probes := 0 }
      ∧ getTruffleHogVersion 100 (ProbeOutcome.success "trufflehog 3.0")
          (some { installed := true, version := "3.0", checkedAt := 90 })
          = { result := "3.0"
              cache := some { installed := true, version := "3.0", checkedAt := 90 }
              probes := 0 }
      ∧ (isTruffleHogInstalled 0 ProbeOutcome.failure none).probes = 1
      ∧ (isTruffleHogInstalled 5 ProbeOutcome.failure
          (isTruffleHogInstalled 0 ProbeOutcome.failure none).cache).probes = 0
      ∧ (isTruffleHogInstalled 9 ProbeOutcome.failure
          (isTruffleHogInstalled 5 ProbeOutcome.failure
            (isTruffleHogInstalled 0 ProbeOutcome.failure none).cache).cache).probes = 0
      ∧ (isTruffleHogInstalled 9 ProbeOutcome.failure
          (isTruffleHogInstalled 5 ProbeOutcome.failure
            (isTruffleHogInstalled 0 ProbeOutcome.failure none).cache).cache).cache
          = (isTruffleHogInstalled 0 ProbeOutcome.failure none).cache) :=
  ⟨⟨by decide, by decide, by decide⟩,
   installCheck_ttl_caching
     { installed := true, version := "3.0", checkedAt := 90 } 100
     (ProbeOutcome.success "trufflehog 3.0") 0 5 9
     ProbeOutcome.failure ProbeOutcome.failure ProbeOutcome.failure
     (by decide) (by decide) (by decide)⟩

/-- C4: when the installation check reports the engine absent, every
scan-mode operation — `scan_git_repo`, `scan_github_org`, `scan_gitlab`,
`scan_filesystem`, `scan_s3_bucket`, `scan_docker_image`, `verify_secret` —
returns the "not installed" message with an empty effect trace: no command
tokens are built and the executor is never invoked. -/
theorem notInstalled_short_circuits
    (exec : List String → ExecutionResult)
    (jsonParse : String → Option TruffleHogFinding)
    (pathResolve : String → String)
    (a1 : ScanGitRepoArgs) (a2 : ScanGithubOrgArgs) (a3 : ScanGitlabArgs)
    (a4 : ScanFilesystemArgs) (a5 : ScanS3BucketArgs) (a6 : ScanDockerImageArgs)
    (env : VerifyEnv) (a7 : VerifySecretArgs) :
    scan_git_repo false exec jsonParse a1 = (Except.ok notInstalledMsg, [])
      ∧ scan_github_org false exec jsonParse a2 = (Except.ok notInstalledMsg, [])
      ∧ scan_gitlab false exec jsonParse a3 = (Except.ok notInstalledMsg, [])
      ∧ scan_filesystem false pathResolve exec jsonParse a4
          = (Except.ok notInstalledMsg, [])
      ∧ scan_s3_bucket false exec jsonParse a5 = (Except.ok notInstalledMsg, [])
      ∧ scan_docker_image false exec jsonParse a6 = (Except.ok notInstalledMsg, [])
      ∧ verify_secret { env with installed := false } a7
          = (Except.ok notInstalledMsg, []) := by
  refine ⟨rfl, rfl, rfl, rfl, rfl, rfl, ?_⟩
  simp [verify_secret]

/-- C2: in `verify_secret`, the number of deletion attempts always equals
the number of successful temp-file creations — exactly one attempt per
creation, on the success path and on every failure path (first conjunct,
over every environment: execution failures, parse failures and write
throws are all instances); and the outcome of the deletion attempt changes
neither the returned result nor the rest of the behaviour — unlink
failures are swallowed (second conjunct). -/
theorem verifySecret_cleanup_invariant (env : VerifyEnv) (a : VerifySecretArgs)
    (b : Bool) :
    countUnlinkAttempts (verify_secret env a).2
        = countTempCreates (verify_secret env a).2
      ∧ verify_secret { env with unlinkOk := b } a = verify_secret env a := by
  by_cases hi : env.installed
  · by_cases hw : env.writeOk
    · cases hfind : parseFindings env.jsonParse
          (env.exec ["filesystem",
            verifyTempFileName env.tempDir env.randomSuffix, "--json",
            "--include-detectors", a.detectorType]).stdout with
      | nil =>
        cases hb : env.unlinkOk <;> cases b <;>
          simp [verify_secret, hi, hw, hfind, hb,
            countUnlinkAttempts, countTempCreates]
      | cons f rest =>
        cases hb : env.unlinkOk <;> cases b <;>
          simp [verify_secret, hi, hw, hfind, hb,
            countUnlinkAttempts, countTempCreates]
    · cases hb : env.unlinkOk <;> cases b <;>
        simp [verify_secret, hi, hw, hb, countUnlinkAttempts, countTempCreates]
  · simp [verify_secret, hi, countUnlinkAttempts, countTempCreates]

/-- Counterexample to C5 as stated: `verify_secret` is a scan-mode
operation (it is gated and executed like the others), yet on an execution
result with exit code 1, stderr `"repository not found"` and empty stdout
it returns the "no matching secrets" report, which does not incorporate
the stderr text at all. -/
theorem verifySecret_ignores_execution_failure :
    (verify_secret
        { installed := true
          tempDir := "/tmp"
          randomSuffix := "abc123xyz"
          writeOk := true
          writeErr := ""
          exec := fun _ =>
            { stdout := "", stderr := "repository not found", exitCode := 1 }
          jsonParse := fun _ => none
          unlinkOk := true }
        { secret := "ghp_example", detectorType := "github" }).1
        = Except.ok (verifyNoMatchMsg "github")
      ∧ jsIncludes (verifyNoMatchMsg "github") "repository not found" = false := by
  constructor
  · rfl
  · rfl

/-- C5 (amended): for the six `scan_*` operations — `verify_secret`
excluded — an execution result with non-zero exit code, non-empty stderr
and empty stdout is surfaced as the per-operation error prefix followed by
the raw stderr text, and the failing output parses to zero findings. -/
theorem scanOps_surface_execution_failure
    (jsonParse : String → Option TruffleHogFinding) (s : String) (c : Int)
    (hs : s ≠ "") (hc : c ≠ 0)
    (a1 : ScanGitRepoArgs) (a2 : ScanGithubOrgArgs) (a3 : ScanGitlabArgs)
    (a4 : ScanFilesystemArgs) (a5 : ScanS3BucketArgs) (a6 : ScanDockerImageArgs)
    (pathResolve : String → String) (cmd4 : List String)
    (h4 : buildFilesystemArgs pathResolve a4 = Except.ok cmd4) :
    scan_git_repo true (fun _ => { stdout := "", stderr := s, exitCode := c })
          jsonParse a1
        = (Except.ok ("Error scanning repository: " ++ s),
           [Effect.built (buildGitRepoArgs a1), Effect.executed (buildGitRepoArgs a1)])
      ∧ scan_github_org true (fun _ => { stdout := "", stderr := s, exitCode := c })
            jsonParse a2
          = (Except.ok ("Error scanning GitHub organization: " ++ s),
             [Effect.built (buildGithubOrgArgs a2),
              Effect.executed (buildGithubOrgArgs a2)])
      ∧ scan_gitlab true (fun _ => { stdout := "", stderr := s, exitCode := c })
            jsonParse a3
          = (Except.ok ("Error scanning GitLab: " ++ s),
             [Effect.built (buildGitlabArgs a3), Effect.executed (buildGitlabArgs a3)])
      ∧ scan_filesystem true pathResolve
            (fun _ => { stdout := "", stderr := s, exitCode := c }) jsonParse a4
          = (Except.ok ("Error scanning filesystem: " ++ s),
             [Effect.built cmd4, Effect.executed cmd4])
      ∧ scan_s3_bucket true (fun _ => { stdout := "", stderr := s, exitCode := c })
            jsonParse a5
          = (Except.ok ("Error scanning S3 bucket: " ++ s),
             [Effect.built (buildS3BucketArgs a5),
              Effect.executed (buildS3BucketArgs a5)])
      ∧ scan_docker_image true (fun _ => { stdout := "", stderr := s, exitCode := c })
            jsonParse a6
          = (Except.ok ("Error scanning Docker image: " ++ s),
             [Effect.built (buildDockerImageArgs a6),
              Effect.executed (buildDockerImageArgs a6)])
      ∧ parseFindings jsonParse "" = [] := by
  have hse : s.isEmpty = false := by
    rw [Bool.eq_false_iff]
    intro h
    exact hs ((String.isEmpty_iff s).mp h)
  have hcond : (c != 0 && !String.isEmpty s && String.isEmpty "") = true := by
    simp [bne_iff_ne, hc, hse]
    rfl
  refine ⟨?_, ?_, ?_, ?_, ?_, ?_, rfl⟩ <;>
    simp [scan_git_repo, scan_github_org, scan_gitlab, scan_filesystem,
      scan_s3_bucket, scan_docker_image, runScan, h4, hcond]

/-- Witness for the amended C5 at a concrete failing execution. -/
theorem scanOps_surface_execution_failure_witness :
    ("repository not found" ≠ "" ∧ (1 : Int) ≠ 0
        ∧ buildFilesystemArgs id { path := "/tmp/proj" }
            = Except.ok ["filesystem", "/tmp/proj", "--json"])
    ∧ (scan_git_repo true
          (fun _ => { stdout := "", stderr := "repository not found", exitCode := 1 })
          (fun _ => none) { target := "https://github.com/acme/app" }
        = (Except.ok ("Error scanning repository: " ++ "repository not found"),
           [Effect.built (buildGitRepoArgs { target := "https://github.com/acme/app" }),
            Effect.executed (buildGitRepoArgs { target := "https://github.com/acme/app" })])
      ∧ scan_github_org true
            (fun _ => { stdout := "", stderr := "repository not found", exitCode := 1 })
            (fun _ => none) { org := "acme" }
          = (Except.ok ("Error scanning GitHub organization: " ++ "repository not found"),
             [Effect.built (buildGithubOrgArgs { org := "acme" }),
              Effect.executed (buildGithubOrgArgs { org := "acme" })])
      ∧ scan_gitlab true
            (fun _ => { stdout := "", stderr := "repository not found", exitCode := 1 })
            (fun _ => none) { url := "https://gitlab.example.net", token := "glpat" }
          = (Except.ok ("Error scanning GitLab: " ++ "repository not found"),
             [Effect.built (buildGitlabArgs
                { url := "https://gitlab.example.net", token := "glpat" }),
              Effect.executed (buildGitlabArgs
                { url := "https://gitlab.example.net", token := "glpat" })])
      ∧ scan_filesystem true id
            (fun _ => { stdout := "", stderr := "repository not found", exitCode := 1 })
            (fun _ => none) { path := "/tmp/proj" }
          = (Except.ok ("Error scanning filesystem: " ++ "repository not found"),
             [Effect.built ["filesystem", "/tmp/proj", "--json"],
              Effect.executed ["filesystem", "/tmp/proj", "--json"]])
      ∧ scan_s3_bucket true
            (fun _ => { stdout := "", stderr := "repository not found", exitCode := 1 })
            (fun _ => none) { bucket := "bkt" }
          = (Except.ok ("Error scanning S3 bucket: " ++ "repository not found"),
             [Effect.built (buildS3BucketArgs { bucket := "bkt" }),
              Effect.executed (buildS3BucketArgs { bucket := "bkt" })])
      ∧ scan_docker_image true
            (fun _ => { stdout := "", stderr := "repository not found", exitCode := 1 })
            (fun _ => none) { image := "nginx:latest" }
          = (Except.ok ("Error scanning Docker image: " ++ "repository not found"),
             [Effect.built (buildDockerImageArgs { image := "nginx:latest" }),
              Effect.executed (buildDockerImageArgs { image := "nginx:latest" })])
      ∧ parseFindings (fun _ => none) "" = []) :=
  ⟨⟨by decide, by decide, rfl⟩,
   scanOps_surface_execution_failure (fun _ => none) "repository not found" 1
     (by decide) (by decide)
     { target := "https://github.com/acme/app" } { org := "acme" }
     { url := "https://gitlab.example.net", token := "glpat" }
     { path := "/tmp/proj" } { bucket := "bkt" } { image := "nginx:latest" }
     id ["filesystem", "/tmp/proj", "--json"] rfl⟩

/-- The `excludePaths` loop on a null-byte-free list appends one
`--exclude-paths` flag/value pair per element. -/
theorem buildExcludePaths_ok (pathResolve : String → String) (ps : List String)
    (h : ∀ p ∈ ps, nullByte ∉ p.data) (acc : List String) :
    buildExcludePaths pathResolve acc ps
      = Except.ok (acc ++ ps.flatMap (fun p => ["--exclude-paths", pathResolve p])) := by
  induction ps generalizing acc with
  | nil => simp [buildExcludePaths]
  | cons p ps ih =>
    have hp : nullByte ∉ p.data := h p (List.mem_cons_self p ps)
    have hps : ∀ q ∈ ps, nullByte ∉ q.data :=
      fun q hq => h q (List.mem_cons_of_mem p hq)
    simp [buildExcludePaths, validatePath, hp, ih hps]

/-- The `excludePaths` loop aborts with the validation error as soon as it
meets an element with a null byte. -/
theorem buildExcludePaths_null_byte (pathResolve : String → String)
    (ps : List String) (h : ∃ p ∈ ps, nullByte ∈ p.data)
    (acc : List String) :
    buildExcludePaths pathResolve acc ps
      = Except.error "Invalid path: contains null bytes" := by
  induction ps generalizing acc with
  | nil => simp at h
  | cons p ps ih =>
    by_cases hp : nullByte ∈ p.data
    · simp [buildExcludePaths, validatePath, hp]
    · obtain ⟨q, hq, hqn⟩ := h
      rcases List.mem_cons.mp hq with rfl | hq'
      · exact absurd hqn hp
      · simp only [buildExcludePaths, validatePath]
        rw [if_neg (by simpa using hp)]
        exact ih ⟨q, hq', hqn⟩ _

/-- Counterexample to C6 as stated: the `excludePaths` filter of
`scan_filesystem` is list-valued, yet its two elements are expanded into
two `--exclude-paths` flag/value pairs and no comma-joined token is built. -/
theorem excludePaths_expansion_counterexample :
    buildFilesystemArgs id { path := "/tmp/proj", excludePaths := some ["/a", "/b"] }
        = Except.ok ["filesystem", "/tmp/proj", "--json",
            "--exclude-paths", "/a", "--exclude-paths", "/b"]
      ∧ (["filesystem", "/tmp/proj", "--json",
            "--exclude-paths", "/a", "--exclude-paths", "/b"].count "--exclude-paths") = 2
      ∧ "/a,/b" ∉ ["filesystem", "/tmp/proj", "--json",
            "--exclude-paths", "/a", "--exclude-paths", "/b"] :=
  ⟨rfl, by decide, by decide⟩

/-- C6 (amended): the four detector/repository list filters are each joined
into a single comma-separated value token directly following their one flag
token (first four conjuncts), while `scan_filesystem`'s `excludePaths`
filter is instead expanded into one `--exclude-paths` flag/value pair per
element (last conjunct). -/
theorem listFilters_token_shapes
    (agit : ScanGitRepoArgs) (aorg : ScanGithubOrgArgs)
    (afs : ScanFilesystemArgs) (pathResolve : String → String)
    (ds es rs xs ps : List String) :
    (agit.includeDetectors = some ds →
      ∃ pre post, buildGitRepoArgs agit
        = pre ++ "--include-detectors" :: String.intercalate "," ds :: post)
      ∧ (agit.excludeDetectors = some es →
          ∃ pre post, buildGitRepoArgs agit
            = pre ++ "--exclude-detectors" :: String.intercalate "," es :: post)
      ∧ (aorg.includeRepos = some rs →
          ∃ pre post, buildGithubOrgArgs aorg
            = pre ++ "--include-repos" :: String.intercalate "," rs :: post)
      ∧ (aorg.excludeRepos = some xs →
          ∃ pre post, buildGithubOrgArgs aorg
            = pre ++ "--exclude-repos" :: String.intercalate "," xs :: post)
      ∧ (afs.excludePaths = some ps →
          nullByte ∉ afs.path.data →
          (∀ p ∈ ps, nullByte ∉ p.data) →
          buildFilesystemArgs pathResolve afs
            = Except.ok (["filesystem", pathResolve afs.path, "--json"]
                ++ ps.flatMap (fun p => ["--exclude-paths", pathResolve p])
                ++ optFlag "--only-verified" afs.onlyVerified)) := by
  refine ⟨?_, ?_, ?_, ?_, ?_⟩
  · intro h
    refine ⟨["git", agit.target, "--json"] ++ optStr "--branch" agit.branch
        ++ optInt "--max-depth" agit.maxDepth
        ++ optFlag "--only-verified" agit.onlyVerified
        ++ optStr "--since-commit" agit.sinceCommit,
      optJoinList "--exclude-detectors" agit.excludeDetectors, ?_⟩
    simp [buildGitRepoArgs, h, optJoinList, List.append_assoc]
  · intro h
    refine ⟨["git", agit.target, "--json"] ++ optStr "--branch" agit.branch
        ++ optInt "--max-depth" agit.maxDepth
        ++ optFlag "--only-verified" agit.onlyVerified
        ++ optStr "--since-commit" agit.sinceCommit
        ++ optJoinList "--include-detectors" agit.includeDetectors, [], ?_⟩
    simp [buildGitRepoArgs, h, optJoinList, List.append_assoc]
  · intro h
    refine ⟨["github", "--org", aorg.org, "--json"] ++ optStr "--token" aorg.token,
      optJoinList "--exclude-repos" aorg.excludeRepos
        ++ optFlag "--only-verified" aorg.onlyVerified, ?_⟩
    simp [buildGithubOrgArgs, h, optJoinList, List.append_assoc]
  · intro h
    refine ⟨["github", "--org", aorg.org, "--json"] ++ optStr "--token" aorg.token
        ++ optJoinList "--include-repos" aorg.includeRepos,
      optFlag "--only-verified" aorg.onlyVerified, ?_⟩
    simp [buildGithubOrgArgs, h, optJoinList, List.append_assoc]
  · intro h hpath hps
    simp [buildFilesystemArgs, validatePath, hpath, h,
      buildExcludePaths_ok pathResolve ps hps, List.append_assoc]

/-- Witness for the amended C6 at concrete filter lists. -/
theorem listFilters_token_shapes_witness :
    (some ["aws", "github"] = some ["aws", "github"]
        ∧ nullByte ∉ "/tmp/proj".data
        ∧ ∀ p ∈ ["/a", "/b"], nullByte ∉ p.data)
    ∧ (∃ pre post,
        buildGitRepoArgs { target := "r", includeDetectors := some ["aws", "github"] }
          = pre ++ "--include-detectors"
              :: String.intercalate "," ["aws", "github"] :: post)
    ∧ buildFilesystemArgs id
        { path := "/tmp/proj", excludePaths := some ["/a", "/b"] }
        = Except.ok (["filesystem", id "/tmp/proj", "--json"]
            ++ (["/a", "/b"].flatMap (fun p => ["--exclude-paths", id p]))
            ++ optFlag "--only-verified" none) :=
  ⟨⟨rfl, by decide, by decide⟩,
   (listFilters_token_shapes
      { target := "r", includeDetectors := some ["aws", "github"] }
      { org := "o" } { path := "/tmp/proj", excludePaths := some ["/a", "/b"] }
      id ["aws", "github"] [] [] [] ["/a", "/b"]).1 rfl,
   ((listFilters_token_shapes
      { target := "r", includeDetectors := some ["aws", "github"] }
      { org := "o" } { path := "/tmp/proj", excludePaths := some ["/a", "/b"] }
      id ["aws", "github"] [] [] [] ["/a", "/b"]).2.2.2.2 rfl
      (by decide) (by decide))⟩

/-- Counterexample to C7 as stated: an empty `target` in `scan_git_repo` is
not rejected — the handler builds `["git", "", "--json"]`, invokes the
executor with it, and returns an ordinary scan report, with no validation
error anywhere. -/
theorem emptyTarget_not_rejected :
    scan_git_repo true (fun _ => { stdout := "", stderr := "", exitCode := 0 })
        (fun _ => none) { target := "" }
      = (Except.ok "No secrets found.",
         [Effect.built ["git", "", "--json"],
          Effect.executed ["git", "", "--json"]]) := rfl

/-- C7 (amended): only path fields routed through `validatePath` are
validated — a null byte in `scan_filesystem`'s `path`, or in any element
of its `excludePaths`, throws the `ValidationError` before anything is
built or executed (first two conjuncts); `scan_git_repo`'s `target` is
passed through unvalidated, so any string — the empty string included —
is built into the tokens and the scan is attempted (last conjunct). -/
theorem pathValidation_scope
    (pathResolve : String → String) (exec : List String → ExecutionResult)
    (jsonParse : String → Option TruffleHogFinding)
    (a : ScanFilesystemArgs) (b : ScanFilesystemArgs) (ps : List String)
    (ha : nullByte ∈ a.path.data)
    (hb : b.excludePaths = some ps) (hbp : nullByte ∉ b.path.data)
    (hbx : ∃ p ∈ ps, nullByte ∈ p.data)
    (agit : ScanGitRepoArgs) :
    scan_filesystem true pathResolve exec jsonParse a
        = (Except.error "Invalid path: contains null bytes", [])
      ∧ scan_filesystem true pathResolve exec jsonParse b
          = (Except.error "Invalid path: contains null bytes", [])
      ∧ scan_git_repo true exec jsonParse agit
          = (Except.ok (runScan "Error scanning repository: " exec jsonParse
              (buildGitRepoArgs agit)).1,
             [Effect.built (buildGitRepoArgs agit),
              Effect.executed (buildGitRepoArgs agit)]) := by
  refine ⟨?_, ?_, ?_⟩
  · simp [scan_filesystem, buildFilesystemArgs, validatePath, ha]
  · simp [scan_filesystem, buildFilesystemArgs, validatePath, hb, hbp,
      buildExcludePaths_null_byte pathResolve ps hbx]
  · rfl

/-- Witness for the amended C7 at concrete null-byte paths. -/
theorem pathValidation_scope_witness :
    (nullByte ∈ "/tmp/\x00proj".data
        ∧ (some ["/ok", "/bad\x00"] : Option (List String)) = some ["/ok", "/bad\x00"]
        ∧ nullByte ∉ "/tmp/proj".data
        ∧ ∃ p ∈ ["/ok", "/bad\x00"], nullByte ∈ p.data)
    ∧ (scan_filesystem true id (fun _ => { stdout := "", stderr := "", exitCode := 0 })
          (fun _ => none) { path := "/tmp/\x00proj" }
        = (Except.error "Invalid path: contains null bytes", [])
      ∧ scan_filesystem true id (fun _ => { stdout := "", stderr := "", exitCode := 0 })
          (fun _ => none)
          { path := "/tmp/proj", excludePaths := some ["/ok", "/bad\x00"] }
          = (Except.error "Invalid path: contains null bytes", [])
      ∧ scan_git_repo true (fun _ => { stdout := "", stderr := "", exitCode := 0 })
          (fun _ => none) { target := "" }
          = (Except.ok (runScan "Error scanning repository: "
              (fun _ => { stdout := "", stderr := "", exitCode := 0 })
              (fun _ => none) (buildGitRepoArgs { target := "" })).1,
             [Effect.built (buildGitRepoArgs { target := "" }),
              Effect.executed (buildGitRepoArgs { target := "" })])) :=
  ⟨⟨by decide, rfl, by decide, ⟨"/bad\x00", by decide, by decide⟩⟩,
   pathValidation_scope id (fun _ => { stdout := "", stderr := "", exitCode := 0 })
     (fun _ => none) { path := "/tmp/\x00proj" }
     { path := "/tmp/proj", excludePaths := some ["/ok", "/bad\x00"] }
     ["/ok", "/bad\x00"] (by decide) rfl (by decide)
     ⟨"/bad\x00", by decide, by decide⟩ { target := "" }⟩

/-- C9's divergence, recorded from the source: the temp-file name suffix of
`verify_secret` comes from `Math.random()` — the non-cryptographic PRNG —
not from a cryptographically-sourced generator (and not from a timestamp),
while the file itself is created with owner-only permission `0o600`. -/
theorem verifySuffix_source_and_mode :
    verifySuffixSource = RandomnessSource.mathRandom
      ∧ verifySuffixSource ≠ RandomnessSource.cryptoRandom
      ∧ verifySuffixSource ≠ RandomnessSource.timestamp
      ∧ verifyTempFileMode = 0o600 := by decide

/-- C10: `scan_gitlab` appends `--url url` exactly when the url does not
contain the substring `"gitlab.com"` (first conjunct characterizes the
whole token list); in particular the non-GitLab.com host
`https://gitlab.com.example.net` contains that substring, so no `--url`
token is passed for it (middle conjuncts), while a host without the
substring does get the token pair (last conjuncts). -/
theorem gitlabUrl_flag_iff_no_gitlabCom_substring (a : ScanGitlabArgs) :
    buildGitlabArgs a
        = ["gitlab", "--token", a.token, "--json"]
          ++ (if jsIncludes a.url "gitlab.com" then [] else ["--url", a.url])
          ++ optStr "--group" a.group ++ optStr "--project" a.project
          ++ optFlag "--only-verified" a.onlyVerified
      ∧ jsIncludes "https://gitlab.com.example.net" "gitlab.com" = true
      ∧ buildGitlabArgs { url := "https://gitlab.com.example.net", token := "tok" }
          = ["gitlab", "--token", "tok", "--json"]
      ∧ jsIncludes "https://gitlab.example.net" "gitlab.com" = false
      ∧ buildGitlabArgs { url := "https://gitlab.example.net", token := "tok" }
          = ["gitlab", "--token", "tok", "--json",
             "--url", "https://gitlab.example.net"] := by
  refine ⟨?_, by decide, rfl, by decide, rfl⟩
  simp [buildGitlabArgs, List.append_assoc]

end TrufflehogMcp
